import Mathlib

/-!
# Verification of the CLAM `create_patches_fp.py` batch orchestrator

A shallow embedding of the `seg_and_patch` orchestrator from
`create_patches_fp.py` and proofs about its per-slide state machine:
auto-skip, legacy parameter migration, level auto-selection, the
segmentation size guard, keep/exclude id parsing, physical-spacing patch
sizing with the two-provider MPP fallback chain, per-item ledger
persistence, and the end-of-run timing aggregation.

Python `float` arithmetic is modelled exactly over `ℚ`; Python strings are
modelled as `String` where only equality matters and as `List Char` where
the code splits and parses them.  External collaborators (the filesystem,
`WholeSlideImage`, the segmentation / patching / stitching routines and the
two MPP metadata providers) are modelled as a per-slide environment record
supplying their observable results.
-/

namespace CLAM


/-! ## Python numeric and indexing semantics -/

/-- Python `int(q)` on a real value: truncation toward zero. -/
def pyInt (q : ℚ) : ℤ := if 0 ≤ q then ⌊q⌋ else ⌈q⌉

/-- Python `round(q)` to an integer: round half to even (banker's rounding). -/
def pyRound (q : ℚ) : ℤ :=
  let f : ℤ := ⌊q⌋
  let r : ℚ := q - (f : ℚ)
  if r < 1/2 then f
  else if 1/2 < r then f + 1
  else if f % 2 = 0 then f else f + 1

/-- Python list indexing `l[i]`: negative indices count from the end;
an out-of-range index raises (modelled as `none`). -/
def pyIdx {α : Type} (l : List α) (i : ℤ) : Option α :=
  if 0 ≤ i then l[i.toNat]?
  else if i.natAbs ≤ l.length then l[l.length - i.natAbs]? else none

/-! ## Decimal strings: `str.split(",")` and `astype(int)` -/

/-- Numeric value of a decimal digit character. -/
def digitVal (c : Char) : ℕ := c.toNat - 48

/-- The decimal digit character for `d < 10`. -/
def digitChar (d : ℕ) : Char := Char.ofNat (48 + d)

/-- Parse a nonempty all-digit character list as a natural number,
most-significant digit first; anything else is a parse failure. -/
def parseNat (s : List Char) : Option ℕ :=
  if s ≠ [] ∧ s.all Char.isDigit then
    some (s.foldl (fun a c => a * 10 + digitVal c) 0)
  else none

/-- Parse one token the way `numpy.astype(int)` parses a decimal string:
an optional sign followed by at least one digit. -/
def pyParseInt (s : List Char) : Option ℤ :=
  match s with
  | [] => none
  | c :: rest =>
    if c = '-' then (parseNat rest).map (fun n => -(n : ℤ))
    else if c = '+' then (parseNat rest).map (fun n => (n : ℤ))
    else (parseNat (c :: rest)).map (fun n => (n : ℤ))

/-- Parse every token or fail (models `astype(int)` raising on a bad token). -/
def mapParse (f : List Char → Option ℤ) : List (List Char) → Option (List ℤ)
  | [] => some []
  | a :: t =>
    match f a, mapParse f t with
    | some b, some bs => some (b :: bs)
    | _, _ => none

/-- Decimal rendering of a natural number (as Python's `str`). -/
def renderNat (n : ℕ) : List Char :=
  if n = 0 then ['0'] else ((Nat.digits 10 n).map digitChar).reverse

/-- Decimal rendering of an integer (as Python's `str`). -/
def renderInt (i : ℤ) : List Char :=
  if i < 0 then '-' :: renderNat i.natAbs else renderNat i.toNat

/-- Comma-join of rendered integers: a canonical "comma-separated string of
integers" as the spec describes. -/
def renderInts (ns : List ℤ) : List Char :=
  [','].intercalate (ns.map renderInt)

/-! ## Data model

`Record` is one row of the processing ledger (the pandas dataframe built by
`initialize_df`); `Config` holds the `seg_and_patch` arguments together with
the run-level fact `legacy_support` (whether `"a"` is one of the ledger's
columns); `SlideEnv` supplies the observable results of all external
collaborators for one slide (filesystem checks, `WholeSlideImage`, the
timed stage routines and the two MPP metadata providers). -/

structure SegParams where
  seg_level : ℤ
  sthresh : ℤ
  mthresh : ℤ
  close : ℤ
  use_otsu : Bool
  keep_ids : List Char
  exclude_ids : List Char
deriving Repr, DecidableEq

structure FilterParams where
  a_t : ℤ
  a_h : ℤ
  max_n_holes : ℤ
deriving Repr, DecidableEq

structure VisParams where
  vis_level : ℤ
  line_thickness : ℤ
deriving Repr, DecidableEq

structure PatchParams where
  use_padding : Bool
  contour_fn : String
deriving Repr, DecidableEq

/-- One row of the ledger.  The `a` column is the legacy absolute-area
field; it is meaningful only when `Config.legacy_support` holds. -/
structure Record where
  slide_id : String
  process : ℤ
  status : String
  seg_level : ℤ
  sthresh : ℤ
  mthresh : ℤ
  close : ℤ
  use_otsu : Bool
  keep_ids : List Char
  exclude_ids : List Char
  a_t : ℤ
  a_h : ℤ
  max_n_holes : ℤ
  vis_level : ℤ
  line_thickness : ℤ
  use_padding : Bool
  contour_fn : String
  a : ℤ
deriving Repr, DecidableEq

/-- Observable outcome of one MPP metadata provider
(`_get_mpp_tiffslide` / `_get_mpp_openslide`): it may let an exception
escape, return `None`, or return a value. -/
inductive ProviderResult where
  | raised
  | absent
  | value (m : ℚ)
deriving Repr, DecidableEq

/-- Per-slide environment: results of every external collaborator. -/
structure SlideEnv where
  artifactExists : Bool
  openOk : Bool
  levelDims : List (ℤ × ℤ)
  levelDownsamples : List (ℚ × ℚ)
  bestLevel64 : ℕ
  segRaises : Bool
  segSeconds : ℚ
  patchSeconds : ℚ
  stitchSeconds : ℚ
  stitchFileExists : Bool
  mppTiff : ProviderResult
  mppOpen : ProviderResult
deriving Repr, DecidableEq

/-- The arguments of `seg_and_patch`, plus `legacy_support`
(= `"a" in df.keys()`), a fact of the loaded ledger's schema. -/
structure Config where
  patch_size : ℤ
  step_size : ℤ
  seg_params : SegParams
  filter_params : FilterParams
  vis_params : VisParams
  patch_params : PatchParams
  patch_level : ℤ
  use_default_params : Bool
  seg : Bool
  save_mask : Bool
  stitch : Bool
  patch : Bool
  auto_skip : Bool
  patch_spacing : Option ℚ
  legacy_support : Bool
deriving Repr, DecidableEq

/-- The argument bundle handed to the segmentation collaborator
(`segmentTissue`): resolved segmentation params with parsed id lists,
plus the filter params. -/
structure SegCall where
  seg_level : ℤ
  sthresh : ℤ
  mthresh : ℤ
  close : ℤ
  use_otsu : Bool
  keep_ids : List ℤ
  exclude_ids : List ℤ
  filter : FilterParams
deriving Repr, DecidableEq

/-- The argument bundle handed to the patch-coordinate collaborator
(`process_contours`). -/
structure PatchCall where
  patch_level : ℤ
  patch_size : ℤ
  step_size : ℤ
  use_padding : Bool
  contour_fn : String
deriving Repr, DecidableEq

/-- How the orchestrator's handling of one slide ended.  `crashed` models an
uncaught Python exception (bad level index / unparsable id list), which
would abort the entire run. -/
inductive ItemOutcome where
  | alreadyExist
  | openFailed
  | crashed
  | sizeGuard
  | segFailed
  | mppSkipped
  | completed
deriving Repr, DecidableEq

/-! ## Parameter resolution (`seg_and_patch` lines 189-254) -/

/-- Resolution of `keep_ids` / `exclude_ids` (lines 242-254): the literal
`"none"` or the empty string yields the empty list, anything else is
comma-split and parsed as integers (`none` = `astype(int)` raised). -/
def resolveIds (s : List Char) : Option (List ℤ) :=
  if s ≠ "none".toList ∧ s.length > 0 then mapParse pyParseInt (s.splitOn ',')
  else some []

/-- The pre-loop `df.assign(...)` applied to every row when the ledger has
the legacy `a` column (lines 141-155). -/
def legacyAssign (cfg : Config) (r : Record) : Record :=
  { r with a_t := cfg.filter_params.a_t, a_h := cfg.filter_params.a_h,
           max_n_holes := cfg.filter_params.max_n_holes,
           line_thickness := cfg.vis_params.line_thickness,
           contour_fn := cfg.patch_params.contour_fn }

structure ResolvedParams where
  record : Record
  vis : VisParams
  filter : FilterParams
  seg : SegParams
  patch : PatchParams
deriving Repr, DecidableEq

/-- Per-record parameter resolution (lines 189-222).  In default mode the
global parameter sets are copied; otherwise every parameter is read from
the record's columns, with the legacy branches: `vis_level` is reset to
`-1`, `a_t` is recomputed from the legacy `a` column using the *stored*
`seg_level` (read before its own reset) to index `level_downsamples`, and
`seg_level` is then reset to `-1`.  `none` models the uncaught
`IndexError` when the stored `seg_level` is out of range. -/
def resolveParams (cfg : Config) (env : SlideEnv) (rec : Record) :
    Option ResolvedParams :=
  if cfg.use_default_params then
    some ⟨rec, cfg.vis_params, cfg.filter_params, cfg.seg_params, cfg.patch_params⟩
  else
    let rec1 := if cfg.legacy_support then { rec with vis_level := -1 } else rec
    let vis : VisParams := ⟨rec1.vis_level, rec1.line_thickness⟩
    if cfg.legacy_support then
      match pyIdx env.levelDownsamples rec1.seg_level with
      | none => none
      | some scale =>
        let adjusted := pyInt ((rec1.a : ℚ) * (scale.1 * scale.2) / (512 * 512))
        let rec3 : Record := { rec1 with a_t := adjusted, seg_level := -1 }
        some ⟨rec3, vis, ⟨adjusted, rec3.a_h, rec3.max_n_holes⟩,
              ⟨-1, rec3.sthresh, rec3.mthresh, rec3.close, rec3.use_otsu,
               rec3.keep_ids, rec3.exclude_ids⟩,
              ⟨rec3.use_padding, rec3.contour_fn⟩⟩
    else
      some ⟨rec1, vis, ⟨rec1.a_t, rec1.a_h, rec1.max_n_holes⟩,
            ⟨rec1.seg_level, rec1.sthresh, rec1.mthresh, rec1.close,
             rec1.use_otsu, rec1.keep_ids, rec1.exclude_ids⟩,
            ⟨rec1.use_padding, rec1.contour_fn⟩⟩

/-- Level auto-selection (lines 224-240): a negative requested level means
"auto": level 0 for single-level slides, otherwise the collaborator's
best level for a 64x downsample. -/
def resolveLevel (env : SlideEnv) (lvl : ℤ) : ℤ :=
  if lvl < 0 then (if env.levelDims.length = 1 then 0 else (env.bestLevel64 : ℤ))
  else lvl

/-! ## The MPP fallback chain (lines 290-314) -/

inductive MppResult where
  | skip
  | found (m : ℚ)
deriving Repr, DecidableEq

/-- The two-provider MPP lookup exactly as the orchestrator runs it:
tiffslide is tried first inside a `try` whose handler does `continue`
(so a tiffslide exception skips the slide without consulting openslide);
openslide is consulted only when tiffslide returned `None`, inside a
`try` whose handler only logs (so an openslide exception leaves the value
`None`).  Returns the result and whether openslide was queried. -/
def mppLookup (tiff os : ProviderResult) : MppResult × Bool :=
  match tiff with
  | .raised => (.skip, false)
  | .value m => (.found m, false)
  | .absent =>
    match os with
    | .raised => (.skip, true)
    | .absent => (.skip, true)
    | .value m => (.found m, true)

/-! ## Processing one slide (loop body, lines 163-361) -/

/-- The patch stage's decision (lines 284-342). -/
inductive PatchStep where
  | skipped (osQueried : Bool)
  | ran (call : PatchCall) (tiffQueried osQueried : Bool) (psAfter ssAfter : ℤ)
  | notRun
deriving Repr, DecidableEq

/-- The patch stage: in physical-spacing mode the patch size is recomputed
from the run's *original* base patch size (`orig_patch_size`, line 161,
here `cfg.patch_size`) and the step size is forced equal to it; in
fixed-pixel mode the threaded `patch_size` / `step_size` locals are used
unchanged. -/
def patchStage (cfg : Config) (env : SlideEnv) (pp : PatchParams)
    (patchSize stepSize : ℤ) : PatchStep :=
  if cfg.patch then
    match cfg.patch_spacing with
    | some sp =>
      match mppLookup env.mppTiff env.mppOpen with
      | (.skip, osq) => .skipped osq
      | (.found m, osq) =>
        let ps := pyRound ((cfg.patch_size : ℚ) * sp / m)
        .ran ⟨cfg.patch_level, ps, ps, pp.use_padding, pp.contour_fn⟩ true osq ps ps
    | none =>
      .ran ⟨cfg.patch_level, patchSize, stepSize, pp.use_padding, pp.contour_fn⟩
        false false patchSize stepSize
  else .notRun

/-- Everything observable about the handling of one slide. -/
structure ItemResult where
  record : Record
  outcome : ItemOutcome
  openAttempted : Bool := false
  opened : Bool := false
  segInvoked : Bool := false
  segCall : Option SegCall := none
  maskSaved : Bool := false
  patchInvoked : Bool := false
  patchCall : Option PatchCall := none
  stitchInvoked : Bool := false
  tiffslideQueried : Bool := false
  openslideQueried : Bool := false
  seg_time_elapsed : ℚ := -1
  patch_time_elapsed : ℚ := -1
  stitch_time_elapsed : ℚ := -1
  patchSizeAfter : ℤ
  stepSizeAfter : ℤ
deriving Repr, DecidableEq

/-- The assignment `df.loc[idx, "process"] = 0` (line 170): the very first
mutation for a picked-up slide, before the auto-skip check. -/
def pickedRecord (rec0 : Record) : Record := { rec0 with process := 0 }

/-- The post-guard tail of the loop body (lines 266-361): write the
resolved levels back into the record, then run the enabled segmentation /
mask-save / patch / stitch stages and mark the record `processed`; a
segmentation failure abandons the remaining stages with no status
update. -/
def runStages (cfg : Config) (env : SlideEnv) (rp : ResolvedParams)
    (keepIds exclIds : List ℤ) (visLevel segLevel : ℤ)
    (patchSize stepSize : ℤ) : ItemResult :=
  let rec2 : Record :=
    { rp.record with vis_level := visLevel, seg_level := segLevel }
  let segCallv : Option SegCall :=
    if cfg.seg then
      some ⟨segLevel, rp.seg.sthresh, rp.seg.mthresh, rp.seg.close,
            rp.seg.use_otsu, keepIds, exclIds, rp.filter⟩
    else none
  if cfg.seg && env.segRaises then
    { record := rec2, outcome := .segFailed, openAttempted := true,
      opened := true, segInvoked := true, segCall := segCallv,
      patchSizeAfter := patchSize, stepSizeAfter := stepSize }
  else
    let segT : ℚ := if cfg.seg then env.segSeconds else -1
    match patchStage cfg env rp.patch patchSize stepSize with
    | .skipped osq =>
      { record := rec2, outcome := .mppSkipped, openAttempted := true,
        opened := true, segInvoked := cfg.seg, segCall := segCallv,
        maskSaved := cfg.save_mask, tiffslideQueried := true,
        openslideQueried := osq, seg_time_elapsed := segT,
        patchSizeAfter := patchSize, stepSizeAfter := stepSize }
    | .ran call tq osq psAfter ssAfter =>
      { record := { rec2 with status := "processed" },
        outcome := .completed, openAttempted := true, opened := true,
        segInvoked := cfg.seg, segCall := segCallv,
        maskSaved := cfg.save_mask, patchInvoked := true,
        patchCall := some call, tiffslideQueried := tq,
        openslideQueried := osq,
        stitchInvoked := cfg.stitch && env.stitchFileExists,
        seg_time_elapsed := segT,
        patch_time_elapsed := env.patchSeconds,
        stitch_time_elapsed :=
          if cfg.stitch && env.stitchFileExists then env.stitchSeconds else -1,
        patchSizeAfter := psAfter, stepSizeAfter := ssAfter }
    | .notRun =>
      { record := { rec2 with status := "processed" },
        outcome := .completed, openAttempted := true, opened := true,
        segInvoked := cfg.seg, segCall := segCallv,
        maskSaved := cfg.save_mask,
        stitchInvoked := cfg.stitch && env.stitchFileExists,
        seg_time_elapsed := segT,
        stitch_time_elapsed :=
          if cfg.stitch && env.stitchFileExists then env.stitchSeconds else -1,
        patchSizeAfter := patchSize, stepSizeAfter := stepSize }

/-- The loop body of `seg_and_patch` for one selected slide (lines
163-361): clear the `process` flag, auto-skip on an existing artifact,
open the slide, resolve parameters, auto-select levels, parse the id
restrictions, apply the size guard, write the resolved levels back, then
run the enabled stages, finally marking the record `processed`. -/
def processOne (cfg : Config) (env : SlideEnv) (rec0 : Record)
    (patchSize stepSize : ℤ) : ItemResult :=
  let r : Record := pickedRecord rec0
  if cfg.auto_skip && env.artifactExists then
    { record := { r with status := "already_exist" }, outcome := .alreadyExist,
      patchSizeAfter := patchSize, stepSizeAfter := stepSize }
  else if !env.openOk then
    { record := r, outcome := .openFailed, openAttempted := true,
      patchSizeAfter := patchSize, stepSizeAfter := stepSize }
  else
    match resolveParams cfg env r with
    | none =>
      { record := r, outcome := .crashed, openAttempted := true, opened := true,
        patchSizeAfter := patchSize, stepSizeAfter := stepSize }
    | some rp =>
      let visLevel := resolveLevel env rp.vis.vis_level
      let segLevel := resolveLevel env rp.seg.seg_level
      match resolveIds rp.seg.keep_ids, resolveIds rp.seg.exclude_ids with
      | some keepIds, some exclIds =>
        match pyIdx env.levelDims segLevel with
        | none =>
          { record := rp.record, outcome := .crashed, openAttempted := true,
            opened := true, patchSizeAfter := patchSize, stepSizeAfter := stepSize }
        | some wh =>
          if wh.1 * wh.2 > 10 ^ 8 then
            { record := { rp.record with status := "failed_seg" }, outcome := .sizeGuard,
              openAttempted := true, opened := true,
              patchSizeAfter := patchSize, stepSizeAfter := stepSize }
          else
            runStages cfg env rp keepIds exclIds visLevel segLevel
              patchSize stepSize
      | _, _ =>
        { record := rp.record, outcome := .crashed, openAttempted := true,
          opened := true, patchSizeAfter := patchSize, stepSizeAfter := stepSize }

/-! ## The batch loop (lines 126-372)

The loop writes the whole ledger at the *top* of each iteration
(`df.to_csv`, line 164), processes the slide, and writes once more after
the loop (line 367).  `TraceEvent` records the interleaving of writes and
item completions so that interruption points (trace prefixes) can be
reasoned about. -/

inductive TraceEvent where
  | persist (df : List Record)
  | itemDone (idx : ℕ) (res : ItemResult)
deriving Repr, DecidableEq

structure RunState where
  df : List Record
  patchSize : ℤ
  stepSize : ℤ
  segSum : ℚ
  patchSum : ℚ
  stitchSum : ℚ
  trace : List TraceEvent
  crashed : Bool
deriving Repr, DecidableEq

/-- Indices of the selected rows (`mask = df["process"] == 1`, line 135),
computed once before the loop. -/
def selectedIdxs (df : List Record) : List ℕ :=
  (List.range df.length).filter fun i =>
    match df[i]? with
    | some r => r.process = 1
    | none => false

/-- The run state after an uncaught exception in the current item: the
iteration-top write (line 164) already happened, then the process died. -/
def crashState (st : RunState) : RunState :=
  { st with crashed := true, trace := st.trace ++ [.persist st.df] }

/-- One fully-handled item folded into the run state: the iteration-top
write, the record update, the time accumulation (only a `completed` item
adds to the sums, because every failure path is a `continue` placed
before the accumulation), and the threaded `patch_size` / `step_size`. -/
def stepState (i : ℕ) (st : RunState) (res : ItemResult) : RunState :=
  { df := st.df.set i res.record,
    patchSize := res.patchSizeAfter,
    stepSize := res.stepSizeAfter,
    segSum := st.segSum +
      (if res.outcome = .completed then res.seg_time_elapsed else 0),
    patchSum := st.patchSum +
      (if res.outcome = .completed then res.patch_time_elapsed else 0),
    stitchSum := st.stitchSum +
      (if res.outcome = .completed then res.stitch_time_elapsed else 0),
    trace := st.trace ++ [.persist st.df, .itemDone i res],
    crashed := false }

/-- The per-item loop (lines 163-361): persist the ledger at the top of
the iteration, process the slide, fold the result in, advance.  A
`crashed` item aborts the run. -/
def runLoop (cfg : Config) (envs : ℕ → SlideEnv) :
    List ℕ → RunState → RunState
  | [], st => st
  | i :: rest, st =>
    if st.crashed then st
    else
      match st.df[i]? with
      | none => crashState st
      | some r =>
        let res := processOne cfg (envs i) r st.patchSize st.stepSize
        if res.outcome = .crashed then crashState st
        else runLoop cfg envs rest (stepState i st res)

/-- The whole `seg_and_patch` run: build the selection, apply the legacy
pre-assignment to every row, run the loop, and write the final ledger
(line 367; skipped if an uncaught exception aborted the run). -/
def seg_and_patch (cfg : Config) (envs : ℕ → SlideEnv) (df0 : List Record) :
    RunState :=
  let df1 := if cfg.legacy_support then df0.map (legacyAssign cfg) else df0
  let st := runLoop cfg envs (selectedIdxs df0)
    ⟨df1, cfg.patch_size, cfg.step_size, 0, 0, 0, [], false⟩
  if st.crashed then st else { st with trace := st.trace ++ [.persist st.df] }

/-- The reported average segmentation time (line 363): the accumulated sum
divided by the count of *selected* rows. -/
def reportedAvgSeg (cfg : Config) (envs : ℕ → SlideEnv) (df0 : List Record) : ℚ :=
  (seg_and_patch cfg envs df0).segSum / ((selectedIdxs df0).length : ℚ)

/-- The reported average patching time (line 364). -/
def reportedAvgPatch (cfg : Config) (envs : ℕ → SlideEnv) (df0 : List Record) : ℚ :=
  (seg_and_patch cfg envs df0).patchSum / ((selectedIdxs df0).length : ℚ)

/-- The reported average stitching time (line 365). -/
def reportedAvgStitch (cfg : Config) (envs : ℕ → SlideEnv) (df0 : List Record) : ℚ :=
  (seg_and_patch cfg envs df0).stitchSum / ((selectedIdxs df0).length : ℚ)

/-- The ledger on stable storage after a given trace prefix: the payload of
the last persist event (`none` before the first write). -/
def storedLedger (tr : List TraceEvent) : Option (List Record) :=
  (tr.filterMap fun e =>
    match e with
    | .persist d => some d
    | _ => none).getLast?

/-- The items whose processing has fully finished within a trace prefix. -/
def handledItems (tr : List TraceEvent) : List (ℕ × ItemResult) :=
  tr.filterMap fun e =>
    match e with
    | .itemDone i r => some (i, r)
    | _ => none

/-- Contribution of a list of handled items to the segmentation-time sum:
only items that completed contribute (their stage elapsed value, `-1` for
a disabled stage); items that were skipped or failed contribute nothing. -/
def segContrib (l : List (ℕ × ItemResult)) : ℚ :=
  (l.map fun p =>
    if p.2.outcome = .completed then p.2.seg_time_elapsed else 0).sum

/-- Contribution to the patching-time sum. -/
def patchContrib (l : List (ℕ × ItemResult)) : ℚ :=
  (l.map fun p =>
    if p.2.outcome = .completed then p.2.patch_time_elapsed else 0).sum

/-- Contribution to the stitching-time sum. -/
def stitchContrib (l : List (ℕ × ItemResult)) : ℚ :=
  (l.map fun p =>
    if p.2.outcome = .completed then p.2.stitch_time_elapsed else 0).sum

/-- Modelled from the claim's words (C7), for comparison with the code:
the claimed sum in which every selected item contributes, a non-completing
item contributing the sentinel `-1`. -/
def claimedSegSumC7 (l : List (ℕ × ItemResult)) : ℚ :=
  (l.map fun p =>
    if p.2.outcome = .completed then p.2.seg_time_elapsed else -1).sum

/-- Well-formedness of a run trace: the ledger is persisted at the *start*
of each item's processing and once more at run end, each persist carrying
exactly the updates of the items handled before it. -/
def traceOk : List Record → List TraceEvent → Prop
  | d, [.persist d'] => d' = d
  | d, .persist d' :: .itemDone i r :: rest => d' = d ∧ traceOk (d.set i r.record) rest
  | _, _ => False

/-! ## Concrete fixtures used by witnesses and counterexamples -/

/-- A ledger row as `initialize_df` would produce it for a fresh slide
with the default parameter values. -/
def sampleRecord : Record :=
  { slide_id := "slide_1", process := 1, status := "pending",
    seg_level := -1, sthresh := 8, mthresh := 7, close := 4, use_otsu := false,
    keep_ids := "none".toList, exclude_ids := "none".toList,
    a_t := 100, a_h := 16, max_n_holes := 8,
    vis_level := -1, line_thickness := 500,
    use_padding := true, contour_fn := "four_pt", a := 0 }

/-- A benign slide environment: opens fine, one small pyramid level,
segmentation succeeds in 6 s, no artifacts present, no MPP metadata. -/
def sampleEnv : SlideEnv :=
  { artifactExists := false, openOk := true,
    levelDims := [(1000, 1000)], levelDownsamples := [(1, 1)],
    bestLevel64 := 0, segRaises := false,
    segSeconds := 6, patchSeconds := 2, stitchSeconds := 3,
    stitchFileExists := false, mppTiff := .absent, mppOpen := .absent }

/-- The default `seg_and_patch` configuration with every stage off. -/
def sampleConfig : Config :=
  { patch_size := 256, step_size := 256,
    seg_params := ⟨-1, 8, 7, 4, false, "none".toList, "none".toList⟩,
    filter_params := ⟨100, 16, 8⟩,
    vis_params := ⟨-1, 500⟩,
    patch_params := ⟨true, "four_pt"⟩,
    patch_level := 0, use_default_params := true,
    seg := false, save_mask := false, stitch := false, patch := false,
    auto_skip := true, patch_spacing := none, legacy_support := false }

/-- The resolved parameters `sampleConfig` produces in default mode. -/
def sampleResolved : ResolvedParams :=
  ⟨pickedRecord sampleRecord, sampleConfig.vis_params,
   sampleConfig.filter_params, sampleConfig.seg_params,
   sampleConfig.patch_params⟩

/-! ## Fixtures for individual claims -/

/-- C3 (spec wording, for comparison): the adjusted area the claim
asserts, using Python `round`. -/
def claimedAdjustedAreaC3 (legacyArea dx dy : ℚ) : ℤ :=
  pyRound (legacyArea * (dx * dy) / (512 * 512))

def c3Config : Config :=
  { sampleConfig with use_default_params := false, legacy_support := true }

def c3Record : Record := { sampleRecord with a := 400000, seg_level := 0 }

def c3Env : SlideEnv := { sampleEnv with levelDownsamples := [(8, 8)] }

def c3wEnv : SlideEnv := { sampleEnv with levelDownsamples := [(4, 4)] }

def c4Config : Config :=
  { sampleConfig with patch := true, patch_spacing := some (1/2) }

def c4Env : SlideEnv := { sampleEnv with mppTiff := .value (1/4) }

def c5Config : Config :=
  { sampleConfig with patch := true, patch_spacing := some (1/2) }

def c5Env : SlideEnv :=
  { sampleEnv with mppTiff := .raised, mppOpen := .value (1/4) }

def c5wEnv : SlideEnv := { sampleEnv with mppTiff := .absent, mppOpen := .absent }

def c6Envs : ℕ → SlideEnv := fun _ => sampleEnv

def c6Df : List Record := [sampleRecord]

def cfg7 : Config := { sampleConfig with seg := true }

def env7 : ℕ → SlideEnv := fun i =>
  if i = 0 then { sampleEnv with artifactExists := true }
  else if i = 1 then { sampleEnv with openOk := false }
  else sampleEnv

def df7 : List Record := [sampleRecord, sampleRecord, sampleRecord]

def env7w : ℕ → SlideEnv := fun _ => sampleEnv

def c8Env : SlideEnv := { sampleEnv with openOk := false }

def c8SegEnv : SlideEnv := { sampleEnv with segRaises := true }

/-! ## Theorems -/

theorem digitVal_digitChar {d : ℕ} (hd : d < 10) : digitVal (digitChar d) = d := by
  interval_cases d <;> rfl

theorem isDigit_digitChar {d : ℕ} (hd : d < 10) : (digitChar d).isDigit = true := by
  interval_cases d <;> rfl

theorem foldl_digits_reverse (L : List ℕ) (hL : ∀ d ∈ L, d < 10) (a : ℕ) :
    ((L.map digitChar).reverse.foldl (fun a c => a * 10 + digitVal c) a)
      = a * 10 ^ L.length + Nat.ofDigits 10 L := by
  induction L generalizing a with
  | nil => simp
  | cons d L ih =>
    have hd : d < 10 := hL d (List.mem_cons_self d L)
    have hL' : ∀ x ∈ L, x < 10 := fun x hx => hL x (List.mem_cons_of_mem d hx)
    simp only [List.map_cons, List.reverse_cons, List.foldl_append, List.foldl_cons,
      List.foldl_nil, ih hL', Nat.ofDigits_cons, List.length_cons,
      digitVal_digitChar hd]
    ring

theorem renderNat_ne_nil (n : ℕ) : renderNat n ≠ [] := by
  unfold renderNat
  split
  · simp
  · rename_i h
    intro hcon
    have : Nat.digits 10 n ≠ [] := Nat.digits_ne_nil_iff_ne_zero.2 h
    simp only [List.reverse_eq_nil_iff, List.map_eq_nil_iff] at hcon
    exact this hcon

theorem renderNat_all_digits (n : ℕ) : ∀ c ∈ renderNat n, c.isDigit = true := by
  unfold renderNat
  split
  · intro c hc
    simp only [List.mem_singleton] at hc
    subst hc; rfl
  · rename_i h
    intro c hc
    rw [List.mem_reverse, List.mem_map] at hc
    obtain ⟨d, hd, rfl⟩ := hc
    exact isDigit_digitChar (Nat.digits_lt_base (by norm_num) hd)

theorem parseNat_renderNat (n : ℕ) : parseNat (renderNat n) = some n := by
  unfold parseNat
  rw [if_pos ⟨renderNat_ne_nil n, List.all_eq_true.2 (renderNat_all_digits n)⟩]
  unfold renderNat
  split
  · rename_i h; subst h; rfl
  · rename_i h
    rw [foldl_digits_reverse _ (fun d hd => Nat.digits_lt_base (by norm_num) hd) 0]
    simp [Nat.ofDigits_digits]

theorem head_renderNat_not_sign (n : ℕ) {c : Char} {rest : List Char}
    (h : renderNat n = c :: rest) : c ≠ '-' ∧ c ≠ '+' := by
  have hc : c.isDigit = true := renderNat_all_digits n c (h ▸ List.mem_cons_self c rest)
  constructor <;> rintro rfl <;> simp [Char.isDigit] at hc

theorem pyParseInt_renderInt (i : ℤ) : pyParseInt (renderInt i) = some i := by
  unfold renderInt
  split
  · rename_i h
    simp only [pyParseInt, if_pos rfl, parseNat_renderNat, Option.map_some]
    refine congrArg some ?_
    show -(i.natAbs : ℤ) = i
    omega
  · rename_i h
    rcases hsplit : renderNat i.toNat with _ | ⟨c, rest⟩
    · exact absurd hsplit (renderNat_ne_nil _)
    · obtain ⟨h1, h2⟩ := head_renderNat_not_sign i.toNat hsplit
      simp only [pyParseInt, if_neg h1, if_neg h2, ← hsplit, parseNat_renderNat,
        Option.map_some]
      refine congrArg some ?_
      show ((i.toNat : ℕ) : ℤ) = i
      omega

theorem renderInt_no_comma (i : ℤ) : ',' ∉ renderInt i := by
  intro hmem
  unfold renderInt at hmem
  have hdig : ∀ c ∈ renderInt i, c = '-' ∨ c.isDigit = true := by
    unfold renderInt
    split
    · intro c hc
      rcases List.mem_cons.1 hc with rfl | hc
      · exact Or.inl rfl
      · exact Or.inr (renderNat_all_digits _ c hc)
    · intro c hc
      exact Or.inr (renderNat_all_digits _ c hc)
  unfold renderInt at hdig
  rcases hdig ',' hmem with h | h
  · exact absurd h (by decide)
  · exact absurd h (by decide)

theorem renderInt_no_n (i : ℤ) : 'n' ∉ renderInt i := by
  intro hmem
  have hdig : ∀ c ∈ renderInt i, c = '-' ∨ c.isDigit = true := by
    unfold renderInt
    split
    · intro c hc
      rcases List.mem_cons.1 hc with rfl | hc
      · exact Or.inl rfl
      · exact Or.inr (renderNat_all_digits _ c hc)
    · intro c hc
      exact Or.inr (renderNat_all_digits _ c hc)
  rcases hdig 'n' hmem with h | h
  · exact absurd h (by decide)
  · exact absurd h (by decide)

theorem mapParse_renderInt (ns : List ℤ) :
    mapParse pyParseInt (ns.map renderInt) = some ns := by
  induction ns with
  | nil => rfl
  | cons a t ih => simp [mapParse, pyParseInt_renderInt, ih]

theorem renderInt_ne_nil (i : ℤ) : renderInt i ≠ [] := by
  unfold renderInt
  split
  · simp
  · exact renderNat_ne_nil _

theorem intercalate_comma_cons_cons (a b : List Char) (t : List (List Char)) :
    [','].intercalate (a :: b :: t) = a ++ ',' :: [','].intercalate (b :: t) := by
  simp [List.intercalate]

theorem intercalate_comma_singleton (a : List Char) :
    [','].intercalate [a] = a := by
  simp [List.intercalate]

theorem renderInts_ne_nil {ns : List ℤ} (h : ns ≠ []) : renderInts ns ≠ [] := by
  rcases ns with _ | ⟨a, t⟩
  · exact absurd rfl h
  · unfold renderInts
    rcases t with _ | ⟨b, t'⟩
    · simpa [intercalate_comma_singleton] using renderInt_ne_nil a
    · rw [List.map_cons, List.map_cons, intercalate_comma_cons_cons]
      intro hcon
      simp at hcon

theorem mem_intercalate_comma {c : Char} {ls : List (List Char)}
    (h : c ∈ [','].intercalate ls) : c = ',' ∨ ∃ l ∈ ls, c ∈ l := by
  induction ls with
  | nil => simp [List.intercalate] at h
  | cons a t ih =>
    rcases t with _ | ⟨b, t'⟩
    · rw [intercalate_comma_singleton] at h
      exact Or.inr ⟨a, List.mem_cons_self a [], h⟩
    · rw [intercalate_comma_cons_cons] at h
      rcases List.mem_append.1 h with ha | hrest
      · exact Or.inr ⟨a, List.mem_cons_self a _, ha⟩
      · rcases List.mem_cons.1 hrest with rfl | hmem
        · exact Or.inl rfl
        · rcases ih hmem with h1 | ⟨l, hl, hcl⟩
          · exact Or.inl h1
          · exact Or.inr ⟨l, List.mem_cons_of_mem a hl, hcl⟩

theorem renderInts_ne_none_lit (ns : List ℤ) : renderInts ns ≠ "none".toList := by
  intro hcon
  have hn : 'n' ∈ renderInts ns := by rw [hcon]; decide
  rcases mem_intercalate_comma hn with h | ⟨l, hl, hcl⟩
  · exact absurd h (by decide)
  · rcases List.mem_map.1 hl with ⟨i, _, rfl⟩
    exact renderInt_no_n i hcl

theorem splitOn_renderInts {ns : List ℤ} (h : ns ≠ []) :
    (renderInts ns).splitOn ',' = ns.map renderInt := by
  unfold renderInts
  refine List.splitOn_intercalate _ ',' ?_ ?_
  · intro l hl
    rcases List.mem_map.1 hl with ⟨i, _, rfl⟩
    exact renderInt_no_comma i
  · simpa using h

/-! ## Structural lemmas about the embedding -/

theorem resolveParams_record (cfg : Config) (env : SlideEnv) {r : Record}
    {rp : ResolvedParams} (h : resolveParams cfg env r = some rp) :
    rp.record.process = r.process ∧ rp.record.status = r.status := by
  by_cases hdef : cfg.use_default_params = true
  · simp [resolveParams, hdef] at h
    rw [← h]
    exact ⟨rfl, rfl⟩
  · by_cases hleg : cfg.legacy_support = true
    · rcases hidx : pyIdx env.levelDownsamples r.seg_level with _ | scale <;>
        simp [resolveParams, hdef, hleg, hidx] at h
      rw [← h]
      exact ⟨rfl, rfl⟩
    · simp [resolveParams, hdef, hleg] at h
      rw [← h]
      exact ⟨rfl, rfl⟩

/-- Once the auto-skip check, the open, the parameter resolution, the id
parsing and the size guard all pass, the loop body is exactly the staged
tail. -/
theorem processOne_reach (cfg : Config) (env : SlideEnv) (rec0 : Record)
    (ps ss : ℤ) {rp : ResolvedParams} {keepIds exclIds : List ℤ} {w h : ℤ}
    (hskip : (cfg.auto_skip && env.artifactExists) = false)
    (hopen : env.openOk = true)
    (hrp : resolveParams cfg env (pickedRecord rec0) = some rp)
    (hkeep : resolveIds rp.seg.keep_ids = some keepIds)
    (hexcl : resolveIds rp.seg.exclude_ids = some exclIds)
    (hdim : pyIdx env.levelDims (resolveLevel env rp.seg.seg_level) = some (w, h))
    (hle : ¬((100000000 : ℤ) < w * h)) :
    processOne cfg env rec0 ps ss
      = runStages cfg env rp keepIds exclIds
          (resolveLevel env rp.vis.vis_level) (resolveLevel env rp.seg.seg_level)
          ps ss := by
  simp [processOne, hskip, hopen, hrp, hkeep, hexcl, hdim, hle]

/-- Whatever the stage outcomes, the segmentation collaborator is invoked
in the staged tail exactly when the `seg` toggle is on. -/
theorem runStages_segInvoked (cfg : Config) (env : SlideEnv)
    (rp : ResolvedParams) (k e : List ℤ) (v s ps ss : ℤ) :
    (runStages cfg env rp k e v s ps ss).segInvoked = cfg.seg := by
  cases hs : cfg.seg <;> cases hr : env.segRaises <;>
    rcases hps : patchStage cfg env rp.patch ps ss
      with osq | ⟨call, tq, osq, pa, sa⟩ | _ <;>
    simp [runStages, hs, hr, hps]

theorem runStages_process (cfg : Config) (env : SlideEnv)
    (rp : ResolvedParams) (k e : List ℤ) (v s ps ss : ℤ) :
    (runStages cfg env rp k e v s ps ss).record.process = rp.record.process := by
  cases hs : cfg.seg <;> cases hr : env.segRaises <;>
    rcases hps : patchStage cfg env rp.patch ps ss
      with osq | ⟨call, tq, osq, pa, sa⟩ | _ <;>
    simp [runStages, hs, hr, hps]

/-- C1: with auto-skip enabled and the slide's patch-coordinate artifact
already present at its destination path, the record's status becomes
`already_exist` and no stage runs for that slide: the slide is not even
opened, and neither segmentation, mask save, patching nor stitching is
invoked. -/
theorem c1_auto_skip (cfg : Config) (env : SlideEnv) (rec0 : Record)
    (ps ss : ℤ) (hskip : cfg.auto_skip = true)
    (hart : env.artifactExists = true) :
    (processOne cfg env rec0 ps ss).record.status = "already_exist" ∧
    (processOne cfg env rec0 ps ss).outcome = .alreadyExist ∧
    (processOne cfg env rec0 ps ss).openAttempted = false ∧
    (processOne cfg env rec0 ps ss).segInvoked = false ∧
    (processOne cfg env rec0 ps ss).maskSaved = false ∧
    (processOne cfg env rec0 ps ss).patchInvoked = false ∧
    (processOne cfg env rec0 ps ss).stitchInvoked = false := by
  simp [processOne, hskip, hart]

theorem c1_auto_skip_witness :
    (processOne sampleConfig { sampleEnv with artifactExists := true }
      sampleRecord 256 256).record.status = "already_exist" ∧
    (processOne sampleConfig { sampleEnv with artifactExists := true }
      sampleRecord 256 256).outcome = .alreadyExist ∧
    (processOne sampleConfig { sampleEnv with artifactExists := true }
      sampleRecord 256 256).openAttempted = false ∧
    (processOne sampleConfig { sampleEnv with artifactExists := true }
      sampleRecord 256 256).segInvoked = false ∧
    (processOne sampleConfig { sampleEnv with artifactExists := true }
      sampleRecord 256 256).maskSaved = false ∧
    (processOne sampleConfig { sampleEnv with artifactExists := true }
      sampleRecord 256 256).patchInvoked = false ∧
    (processOne sampleConfig { sampleEnv with artifactExists := true }
      sampleRecord 256 256).stitchInvoked = false :=
  c1_auto_skip sampleConfig { sampleEnv with artifactExists := true }
    sampleRecord 256 256 rfl rfl

/-- C2: whenever the slide reaches the size guard with a resolved
segmentation level of pixel dimensions `w × h` and `w * h > 10^8`, the
status is set to `failed_seg` and the segmentation collaborator is not
invoked; conversely, whenever the segmentation collaborator is invoked,
the resolved segmentation-level area is at most `10^8`. -/
theorem c2_size_guard (cfg : Config) (env : SlideEnv) (rec0 : Record)
    (ps ss : ℤ) :
    (∀ rp keepIds exclIds w h,
      (cfg.auto_skip && env.artifactExists) = false →
      env.openOk = true →
      resolveParams cfg env (pickedRecord rec0) = some rp →
      resolveIds rp.seg.keep_ids = some keepIds →
      resolveIds rp.seg.exclude_ids = some exclIds →
      pyIdx env.levelDims (resolveLevel env rp.seg.seg_level) = some (w, h) →
      w * h > 10 ^ 8 →
      (processOne cfg env rec0 ps ss).record.status = "failed_seg" ∧
      (processOne cfg env rec0 ps ss).outcome = .sizeGuard ∧
      (processOne cfg env rec0 ps ss).segInvoked = false)
    ∧
    ((processOne cfg env rec0 ps ss).segInvoked = true →
      ∃ rp w h,
        resolveParams cfg env (pickedRecord rec0) = some rp ∧
        pyIdx env.levelDims (resolveLevel env rp.seg.seg_level) = some (w, h) ∧
        w * h ≤ 10 ^ 8) := by
  constructor
  · intro rp keepIds exclIds w h hskip hopen hrp hkeep hexcl hdim harea
    have harea2 : (100000000 : ℤ) < w * h := by norm_num at harea; exact harea
    simp [processOne, hskip, hopen, hrp, hkeep, hexcl, hdim, harea2]
  · intro hseg
    cases hsk : (cfg.auto_skip && env.artifactExists) with
    | true => simp [processOne, hsk] at hseg
    | false =>
      cases hop : env.openOk with
      | false => simp [processOne, hsk, hop] at hseg
      | true =>
        rcases hrp : resolveParams cfg env (pickedRecord rec0) with _ | rp
        · simp [processOne, hsk, hop, hrp] at hseg
        · rcases hkeep : resolveIds rp.seg.keep_ids with _ | keepIds
          · rcases hexcl : resolveIds rp.seg.exclude_ids with _ | exclIds <;>
              simp [processOne, hsk, hop, hrp, hkeep, hexcl] at hseg
          · rcases hexcl : resolveIds rp.seg.exclude_ids with _ | exclIds
            · simp [processOne, hsk, hop, hrp, hkeep, hexcl] at hseg
            · rcases hdim : pyIdx env.levelDims (resolveLevel env rp.seg.seg_level)
                with _ | ⟨w, h⟩
              · simp [processOne, hsk, hop, hrp, hkeep, hexcl, hdim] at hseg
              · by_cases harea : (100000000 : ℤ) < w * h
                · simp [processOne, hsk, hop, hrp, hkeep, hexcl, hdim, harea]
                    at hseg
                · refine ⟨rp, w, h, rfl, hdim, ?_⟩
                  norm_num
                  exact le_of_not_lt harea

theorem c2_size_guard_witness :
    (processOne sampleConfig { sampleEnv with levelDims := [(20000, 20000)] }
      sampleRecord 256 256).record.status = "failed_seg" ∧
    (processOne sampleConfig { sampleEnv with levelDims := [(20000, 20000)] }
      sampleRecord 256 256).outcome = .sizeGuard ∧
    (processOne sampleConfig { sampleEnv with levelDims := [(20000, 20000)] }
      sampleRecord 256 256).segInvoked = false :=
  (c2_size_guard sampleConfig { sampleEnv with levelDims := [(20000, 20000)] }
      sampleRecord 256 256).1
    sampleResolved [] [] 20000 20000 rfl rfl (by decide) (by decide) (by decide)
    (by decide) (by decide)

/-- C3 counterexample: with legacy area 400000 and downsample scale (8,8)
the code computes `int(400000*64/262144) = 97` (truncation), while the
claimed formula `round(400000*64/262144)` gives 98. -/
theorem c3_counterexample :
    (resolveParams c3Config c3Env c3Record).map (fun rp => rp.filter.a_t)
      = some 97 ∧
    claimedAdjustedAreaC3 400000 8 8 = 98 := by
  constructor
  · simp [resolveParams, c3Config, c3Env, c3Record, sampleConfig, sampleEnv,
      sampleRecord, pyIdx, pyInt]
    norm_num
  · unfold claimedAdjustedAreaC3 pyRound
    norm_num

/-- C3 (amended): with the legacy column present and per-record parameters
in use, the effective `a_t` equals the *truncation* (Python `int`, i.e.
floor for these nonnegative values) of
`legacy_area * (downsample_x * downsample_y) / (512*512)` computed with
the record's *stored* segmentation level, and `seg_level` / `vis_level`
are reset to the auto-select sentinel `-1` before level resolution, which
therefore auto-selects. -/
theorem c3_legacy_migration (cfg : Config) (env : SlideEnv) (r : Record)
    (hdef : cfg.use_default_params = false) (hleg : cfg.legacy_support = true)
    {sx sy : ℚ} (hidx : pyIdx env.levelDownsamples r.seg_level = some (sx, sy)) :
    ∃ rp, resolveParams cfg env r = some rp ∧
      rp.filter.a_t = pyInt ((r.a : ℚ) * (sx * sy) / (512 * 512)) ∧
      rp.record.a_t = pyInt ((r.a : ℚ) * (sx * sy) / (512 * 512)) ∧
      rp.seg.seg_level = -1 ∧
      rp.vis.vis_level = -1 ∧
      resolveLevel env rp.seg.seg_level
        = (if env.levelDims.length = 1 then 0 else (env.bestLevel64 : ℤ)) ∧
      resolveLevel env rp.vis.vis_level
        = (if env.levelDims.length = 1 then 0 else (env.bestLevel64 : ℤ)) := by
  simp [resolveParams, hdef, hleg, hidx, resolveLevel]

theorem c3_legacy_migration_witness :
    ∃ rp, resolveParams c3Config c3wEnv c3Record = some rp ∧
      rp.filter.a_t = pyInt ((c3Record.a : ℚ) * ((4 : ℚ) * 4) / (512 * 512)) ∧
      rp.record.a_t = pyInt ((c3Record.a : ℚ) * ((4 : ℚ) * 4) / (512 * 512)) ∧
      rp.seg.seg_level = -1 ∧
      rp.vis.vis_level = -1 ∧
      resolveLevel c3wEnv rp.seg.seg_level
        = (if c3wEnv.levelDims.length = 1 then 0 else (c3wEnv.bestLevel64 : ℤ)) ∧
      resolveLevel c3wEnv rp.vis.vis_level
        = (if c3wEnv.levelDims.length = 1 then 0 else (c3wEnv.bestLevel64 : ℤ)) :=
  c3_legacy_migration c3Config c3wEnv c3Record rfl rfl (by decide)

/-- C4: in physical-spacing mode, once a native MPP value `m` is obtained,
the patch size handed to the patch-coordinate collaborator equals
`round(base_patch_size * patch_spacing / m)` computed from the run's
*original* base patch size (whatever the threaded locals currently hold),
and the step size is forced equal to that patch size. -/
theorem c4_spacing_patch_size (cfg : Config) (env : SlideEnv) (rec0 : Record)
    (ps ss : ℤ) :
    ∀ rp keepIds exclIds w h sp m osq,
      (cfg.auto_skip && env.artifactExists) = false →
      env.openOk = true →
      resolveParams cfg env (pickedRecord rec0) = some rp →
      resolveIds rp.seg.keep_ids = some keepIds →
      resolveIds rp.seg.exclude_ids = some exclIds →
      pyIdx env.levelDims (resolveLevel env rp.seg.seg_level) = some (w, h) →
      ¬((100000000 : ℤ) < w * h) →
      (cfg.seg && env.segRaises) = false →
      cfg.patch = true →
      cfg.patch_spacing = some sp →
      mppLookup env.mppTiff env.mppOpen = (.found m, osq) →
      ∃ pc, (processOne cfg env rec0 ps ss).patchCall = some pc ∧
        pc.patch_size = pyRound ((cfg.patch_size : ℚ) * sp / m) ∧
        pc.step_size = pc.patch_size ∧
        (processOne cfg env rec0 ps ss).patchSizeAfter = pc.patch_size ∧
        (processOne cfg env rec0 ps ss).stepSizeAfter = pc.patch_size := by
  intro rp keepIds exclIds w h sp m osq hskip hopen hrp hkeep hexcl hdim hle
    hsegf hpatch hsp hmpp
  rw [processOne_reach cfg env rec0 ps ss hskip hopen hrp hkeep hexcl hdim hle]
  simp [runStages, patchStage, hsegf, hpatch, hsp, hmpp]

theorem c4_spacing_patch_size_witness :
    ∃ pc, (processOne c4Config c4Env sampleRecord 999 111).patchCall = some pc ∧
      pc.patch_size = 512 ∧ pc.step_size = 512 := by
  obtain ⟨pc, hpc, hsize, hstep, -, -⟩ :=
    c4_spacing_patch_size c4Config c4Env sampleRecord 999 111
      sampleResolved [] [] 1000 1000 (1/2) (1/4) false
      rfl rfl (by decide) (by decide) (by decide) (by decide) (by decide)
      rfl rfl rfl rfl
  have h512 : pyRound ((c4Config.patch_size : ℚ) * (1/2) / (1/4)) = 512 := by
    show pyRound ((256 : ℚ) * (1/2) / (1/4)) = 512
    unfold pyRound
    norm_num
  exact ⟨pc, hpc, by rw [hsize, h512], by rw [hstep, hsize, h512]⟩

/-- C5 (amended): the MPP providers are queried tiffslide first; openslide
is queried exactly when tiffslide returns an absent value *without
raising*; a tiffslide exception abandons the fallback chain and skips the
slide without querying openslide; an openslide exception is caught and
treated as absent; the slide is skipped (status untouched, patching not
invoked, loop proceeds) whenever no value was obtained. -/
theorem c5_mpp_fallback_chain :
    (∀ o, mppLookup .raised o = (.skip, false)) ∧
    (∀ o m, mppLookup (.value m) o = (.found m, false)) ∧
    (∀ o, (mppLookup .absent o).2 = true) ∧
    (mppLookup .absent .raised = (.skip, true)) ∧
    (∀ m, mppLookup .absent (.value m) = (.found m, true)) ∧
    (mppLookup .absent .absent = (.skip, true)) ∧
    (∀ cfg env rec0 ps ss rp keepIds exclIds w h sp osq,
      (cfg.auto_skip && env.artifactExists) = false →
      env.openOk = true →
      resolveParams cfg env (pickedRecord rec0) = some rp →
      resolveIds rp.seg.keep_ids = some keepIds →
      resolveIds rp.seg.exclude_ids = some exclIds →
      pyIdx env.levelDims (resolveLevel env rp.seg.seg_level) = some (w, h) →
      ¬((100000000 : ℤ) < w * h) →
      (cfg.seg && env.segRaises) = false →
      cfg.patch = true →
      cfg.patch_spacing = some sp →
      mppLookup env.mppTiff env.mppOpen = (.skip, osq) →
      (processOne cfg env rec0 ps ss).outcome = .mppSkipped ∧
      (processOne cfg env rec0 ps ss).patchInvoked = false ∧
      (processOne cfg env rec0 ps ss).openslideQueried = osq ∧
      (processOne cfg env rec0 ps ss).record.status = rec0.status) := by
  refine ⟨fun o => rfl, fun o m => rfl, ?_, rfl, fun m => rfl, rfl, ?_⟩
  · intro o
    cases o <;> rfl
  · intro cfg env rec0 ps ss rp keepIds exclIds w h sp osq hskip hopen hrp
      hkeep hexcl hdim hle hsegf hpatch hsp hmpp
    rw [processOne_reach cfg env rec0 ps ss hskip hopen hrp hkeep hexcl hdim hle]
    have hstat := (resolveParams_record cfg env hrp).2
    simp [runStages, patchStage, hsegf, hpatch, hsp, hmpp, hstat, pickedRecord]

/-- C5 counterexample: with tiffslide raising and openslide holding a
value, the slide is skipped and openslide is never queried — a provider
failure does escape its boundary and abandons the fallback chain. -/
theorem c5_counterexample :
    c5Env.mppOpen = .value (1/4) ∧
    (processOne c5Config c5Env sampleRecord 256 256).outcome = .mppSkipped ∧
    (processOne c5Config c5Env sampleRecord 256 256).openslideQueried
      = false := by
  refine ⟨rfl, ?_, ?_⟩ <;> decide

theorem c5_mpp_fallback_chain_witness :
    (processOne c5Config c5wEnv sampleRecord 256 256).outcome = .mppSkipped ∧
    (processOne c5Config c5wEnv sampleRecord 256 256).patchInvoked = false ∧
    (processOne c5Config c5wEnv sampleRecord 256 256).openslideQueried = true ∧
    (processOne c5Config c5wEnv sampleRecord 256 256).record.status
      = sampleRecord.status :=
  c5_mpp_fallback_chain.2.2.2.2.2.2 c5Config c5wEnv sampleRecord 256 256
    sampleResolved [] [] 1000 1000 (1/2) true
    rfl rfl (by decide) (by decide) (by decide) (by decide) (by decide)
    rfl rfl rfl rfl

/-! ## Batch-loop lemmas -/

theorem handledItems_append (a b : List TraceEvent) :
    handledItems (a ++ b) = handledItems a ++ handledItems b := by
  simp [handledItems]

theorem handledItems_step (i : ℕ) (st : RunState) (res : ItemResult) :
    handledItems (stepState i st res).trace
      = handledItems st.trace ++ [(i, res)] := by
  simp [stepState, handledItems]

theorem handledItems_persist (tr : List TraceEvent) (d : List Record) :
    handledItems (tr ++ [.persist d]) = handledItems tr := by
  simp [handledItems]

theorem storedLedger_append_persist (tr : List TraceEvent) (d : List Record) :
    storedLedger (tr ++ [.persist d]) = some d := by
  simp [storedLedger]

theorem runLoop_not_crashed (cfg : Config) (envs : ℕ → SlideEnv) :
    ∀ (idxs : List ℕ) (st : RunState),
      (runLoop cfg envs idxs st).crashed = false → st.crashed = false := by
  intro idxs
  induction idxs with
  | nil => intro st h; simpa [runLoop] using h
  | cons i rest ih =>
    intro st h
    by_cases hc : st.crashed = true
    · rw [show runLoop cfg envs (i :: rest) st = st by simp [runLoop, hc]] at h
      rw [hc] at h
      exact absurd h (by simp)
    · exact eq_false_of_ne_true hc

/-- A non-crashing loop handles exactly one item per selected index: a
failing slide does not stop the batch. -/
theorem runLoop_handled (cfg : Config) (envs : ℕ → SlideEnv) :
    ∀ (idxs : List ℕ) (st : RunState),
      (runLoop cfg envs idxs st).crashed = false →
      (handledItems (runLoop cfg envs idxs st).trace).length
        = (handledItems st.trace).length + idxs.length := by
  intro idxs
  induction idxs with
  | nil => intro st h; simp [runLoop]
  | cons i rest ih =>
    intro st h
    have hc : st.crashed = false := runLoop_not_crashed cfg envs (i :: rest) st h
    rcases hdf : st.df[i]? with _ | r
    · rw [show runLoop cfg envs (i :: rest) st = crashState st by
        simp [runLoop, hc, hdf]] at h
      simp [crashState] at h
    · by_cases ho : (processOne cfg (envs i) r st.patchSize st.stepSize).outcome
          = .crashed
      · rw [show runLoop cfg envs (i :: rest) st = crashState st by
          simp [runLoop, hc, hdf, ho]] at h
        simp [crashState] at h
      · have hstep : runLoop cfg envs (i :: rest) st
            = runLoop cfg envs rest
                (stepState i st
                  (processOne cfg (envs i) r st.patchSize st.stepSize)) := by
          simp [runLoop, hc, hdf, ho]
        rw [hstep] at h ⊢
        rw [ih _ h, handledItems_step]
        simp
        omega

/-- A non-crashing loop extends the trace with a well-formed tail: one
persist of the current ledger before each handled item, and the final
ledger after the whole tail. -/
theorem runLoop_traceOk (cfg : Config) (envs : ℕ → SlideEnv) :
    ∀ (idxs : List ℕ) (st : RunState),
      (runLoop cfg envs idxs st).crashed = false →
      ∃ tail, (runLoop cfg envs idxs st).trace = st.trace ++ tail ∧
        traceOk st.df (tail ++ [.persist (runLoop cfg envs idxs st).df]) := by
  intro idxs
  induction idxs with
  | nil =>
    intro st h
    refine ⟨[], by simp [runLoop], ?_⟩
    simp [runLoop, traceOk]
  | cons i rest ih =>
    intro st h
    have hc : st.crashed = false := runLoop_not_crashed cfg envs (i :: rest) st h
    rcases hdf : st.df[i]? with _ | r
    · rw [show runLoop cfg envs (i :: rest) st = crashState st by
        simp [runLoop, hc, hdf]] at h
      simp [crashState] at h
    · by_cases ho : (processOne cfg (envs i) r st.patchSize st.stepSize).outcome
          = .crashed
      · rw [show runLoop cfg envs (i :: rest) st = crashState st by
          simp [runLoop, hc, hdf, ho]] at h
        simp [crashState] at h
      · have hstep : runLoop cfg envs (i :: rest) st
            = runLoop cfg envs rest
                (stepState i st
                  (processOne cfg (envs i) r st.patchSize st.stepSize)) := by
          simp [runLoop, hc, hdf, ho]
        rw [hstep] at h ⊢
        obtain ⟨tail, htr, hok⟩ := ih _ h
        refine ⟨[.persist st.df,
          .itemDone i (processOne cfg (envs i) r st.patchSize st.stepSize)]
            ++ tail, ?_, ?_⟩
        · rw [htr]
          simp [stepState]
        · exact ⟨rfl, hok⟩

/-- The segmentation-time accumulator changes across the loop by exactly
the contribution of the newly handled items (completed items only). -/
theorem runLoop_segSum (cfg : Config) (envs : ℕ → SlideEnv) :
    ∀ (idxs : List ℕ) (st : RunState),
      (runLoop cfg envs idxs st).crashed = false →
      (runLoop cfg envs idxs st).segSum
          - segContrib (handledItems (runLoop cfg envs idxs st).trace)
        = st.segSum - segContrib (handledItems st.trace) := by
  intro idxs
  induction idxs with
  | nil => intro st h; simp [runLoop]
  | cons i rest ih =>
    intro st h
    have hc : st.crashed = false := runLoop_not_crashed cfg envs (i :: rest) st h
    rcases hdf : st.df[i]? with _ | r
    · rw [show runLoop cfg envs (i :: rest) st = crashState st by
        simp [runLoop, hc, hdf]] at h
      simp [crashState] at h
    · by_cases ho : (processOne cfg (envs i) r st.patchSize st.stepSize).outcome
          = .crashed
      · rw [show runLoop cfg envs (i :: rest) st = crashState st by
          simp [runLoop, hc, hdf, ho]] at h
        simp [crashState] at h
      · have hstep : runLoop cfg envs (i :: rest) st
            = runLoop cfg envs rest
                (stepState i st
                  (processOne cfg (envs i) r st.patchSize st.stepSize)) := by
          simp [runLoop, hc, hdf, ho]
        rw [hstep] at h ⊢
        rw [ih _ h, handledItems_step]
        simp [stepState, segContrib]

/-- The patching-time accumulator version of `runLoop_segSum`. -/
theorem runLoop_patchSum (cfg : Config) (envs : ℕ → SlideEnv) :
    ∀ (idxs : List ℕ) (st : RunState),
      (runLoop cfg envs idxs st).crashed = false →
      (runLoop cfg envs idxs st).patchSum
          - patchContrib (handledItems (runLoop cfg envs idxs st).trace)
        = st.patchSum - patchContrib (handledItems st.trace) := by
  intro idxs
  induction idxs with
  | nil => intro st h; simp [runLoop]
  | cons i rest ih =>
    intro st h
    have hc : st.crashed = false := runLoop_not_crashed cfg envs (i :: rest) st h
    rcases hdf : st.df[i]? with _ | r
    · rw [show runLoop cfg envs (i :: rest) st = crashState st by
        simp [runLoop, hc, hdf]] at h
      simp [crashState] at h
    · by_cases ho : (processOne cfg (envs i) r st.patchSize st.stepSize).outcome
          = .crashed
      · rw [show runLoop cfg envs (i :: rest) st = crashState st by
          simp [runLoop, hc, hdf, ho]] at h
        simp [crashState] at h
      · have hstep : runLoop cfg envs (i :: rest) st
            = runLoop cfg envs rest
                (stepState i st
                  (processOne cfg (envs i) r st.patchSize st.stepSize)) := by
          simp [runLoop, hc, hdf, ho]
        rw [hstep] at h ⊢
        rw [ih _ h, handledItems_step]
        simp [stepState, patchContrib]

/-- The stitching-time accumulator version of `runLoop_segSum`. -/
theorem runLoop_stitchSum (cfg : Config) (envs : ℕ → SlideEnv) :
    ∀ (idxs : List ℕ) (st : RunState),
      (runLoop cfg envs idxs st).crashed = false →
      (runLoop cfg envs idxs st).stitchSum
          - stitchContrib (handledItems (runLoop cfg envs idxs st).trace)
        = st.stitchSum - stitchContrib (handledItems st.trace) := by
  intro idxs
  induction idxs with
  | nil => intro st h; simp [runLoop]
  | cons i rest ih =>
    intro st h
    have hc : st.crashed = false := runLoop_not_crashed cfg envs (i :: rest) st h
    rcases hdf : st.df[i]? with _ | r
    · rw [show runLoop cfg envs (i :: rest) st = crashState st by
        simp [runLoop, hc, hdf]] at h
      simp [crashState] at h
    · by_cases ho : (processOne cfg (envs i) r st.patchSize st.stepSize).outcome
          = .crashed
      · rw [show runLoop cfg envs (i :: rest) st = crashState st by
          simp [runLoop, hc, hdf, ho]] at h
        simp [crashState] at h
      · have hstep : runLoop cfg envs (i :: rest) st
            = runLoop cfg envs rest
                (stepState i st
                  (processOne cfg (envs i) r st.patchSize st.stepSize)) := by
          simp [runLoop, hc, hdf, ho]
        rw [hstep] at h ⊢
        rw [ih _ h, handledItems_step]
        simp [stepState, stitchContrib]

/-- C6 (amended): the full ledger is written wholesale at the *start* of
every item's processing and once more at run end; each write carries
exactly the updates of the items handled before it, and the final stored
ledger is the final in-memory ledger. -/
theorem c6_persistence (cfg : Config) (envs : ℕ → SlideEnv) (df0 : List Record)
    (h : (seg_and_patch cfg envs df0).crashed = false) :
    traceOk (if cfg.legacy_support then df0.map (legacyAssign cfg) else df0)
      (seg_and_patch cfg envs df0).trace ∧
    storedLedger (seg_and_patch cfg envs df0).trace
      = some (seg_and_patch cfg envs df0).df := by
  by_cases hc : (runLoop cfg envs (selectedIdxs df0)
      ⟨if cfg.legacy_support then df0.map (legacyAssign cfg) else df0,
       cfg.patch_size, cfg.step_size, 0, 0, 0, [], false⟩).crashed = true
  · rw [show seg_and_patch cfg envs df0
        = runLoop cfg envs (selectedIdxs df0)
            ⟨if cfg.legacy_support then df0.map (legacyAssign cfg) else df0,
             cfg.patch_size, cfg.step_size, 0, 0, 0, [], false⟩ by
      simp [seg_and_patch, hc]] at h
    rw [hc] at h
    exact absurd h (by simp)
  · have hc' := eq_false_of_ne_true hc
    obtain ⟨tail, htr, hok⟩ := runLoop_traceOk cfg envs (selectedIdxs df0) _ hc'
    have hsp : seg_and_patch cfg envs df0
        = { runLoop cfg envs (selectedIdxs df0)
              ⟨if cfg.legacy_support then df0.map (legacyAssign cfg) else df0,
               cfg.patch_size, cfg.step_size, 0, 0, 0, [], false⟩ with
            trace := (runLoop cfg envs (selectedIdxs df0)
              ⟨if cfg.legacy_support then df0.map (legacyAssign cfg) else df0,
               cfg.patch_size, cfg.step_size, 0, 0, 0, [], false⟩).trace
              ++ [.persist (runLoop cfg envs (selectedIdxs df0)
                ⟨if cfg.legacy_support then df0.map (legacyAssign cfg) else df0,
                 cfg.patch_size, cfg.step_size, 0, 0, 0, [], false⟩).df] } := by
      simp [seg_and_patch, hc']
    rw [hsp]
    constructor
    · show traceOk _ (_ ++ _)
      rw [htr]
      simpa using hok
    · exact storedLedger_append_persist _ _

/-- C6 counterexample: interrupting the one-slide run right after its item
completes (trace prefix of length 2) leaves the stored ledger still
holding the pre-run status `pending`, although the item fully completed
with status `processed` — a fully-completed item's disposition is lost at
that interruption point. -/
theorem c6_counterexample :
    (handledItems ((seg_and_patch sampleConfig c6Envs c6Df).trace.take 2)).map
        (fun p => (p.1, p.2.outcome, p.2.record.status))
      = [(0, ItemOutcome.completed, "processed")] ∧
    (storedLedger ((seg_and_patch sampleConfig c6Envs c6Df).trace.take 2)).map
        (fun L => L.map Record.status) = some ["pending"] := by
  constructor <;> decide

theorem c6_persistence_witness :
    traceOk (if sampleConfig.legacy_support
        then c6Df.map (legacyAssign sampleConfig) else c6Df)
      (seg_and_patch sampleConfig c6Envs c6Df).trace ∧
    storedLedger (seg_and_patch sampleConfig c6Envs c6Df).trace
      = some (seg_and_patch sampleConfig c6Envs c6Df).df :=
  c6_persistence sampleConfig c6Envs c6Df (by decide)

/-- C7 (amended): each reported per-stage average equals the sum of the
stage's elapsed values over the *completed* items only (a disabled stage
contributing its `-1` sentinel inside a completed item; skipped or failed
items contributing nothing at all), divided by the number of *selected*
items. -/
theorem c7_timing_average (cfg : Config) (envs : ℕ → SlideEnv)
    (df0 : List Record) (h : (seg_and_patch cfg envs df0).crashed = false) :
    reportedAvgSeg cfg envs df0
      = segContrib (handledItems (seg_and_patch cfg envs df0).trace)
          / ((selectedIdxs df0).length : ℚ) ∧
    reportedAvgPatch cfg envs df0
      = patchContrib (handledItems (seg_and_patch cfg envs df0).trace)
          / ((selectedIdxs df0).length : ℚ) ∧
    reportedAvgStitch cfg envs df0
      = stitchContrib (handledItems (seg_and_patch cfg envs df0).trace)
          / ((selectedIdxs df0).length : ℚ) := by
  by_cases hc : (runLoop cfg envs (selectedIdxs df0)
      ⟨if cfg.legacy_support then df0.map (legacyAssign cfg) else df0,
       cfg.patch_size, cfg.step_size, 0, 0, 0, [], false⟩).crashed = true
  · rw [show seg_and_patch cfg envs df0
        = runLoop cfg envs (selectedIdxs df0)
            ⟨if cfg.legacy_support then df0.map (legacyAssign cfg) else df0,
             cfg.patch_size, cfg.step_size, 0, 0, 0, [], false⟩ by
      simp [seg_and_patch, hc]] at h
    rw [hc] at h
    exact absurd h (by simp)
  · have hc' := eq_false_of_ne_true hc
    have hseg := runLoop_segSum cfg envs (selectedIdxs df0)
      ⟨if cfg.legacy_support then df0.map (legacyAssign cfg) else df0,
       cfg.patch_size, cfg.step_size, 0, 0, 0, [], false⟩ hc'
    have hpatch := runLoop_patchSum cfg envs (selectedIdxs df0)
      ⟨if cfg.legacy_support then df0.map (legacyAssign cfg) else df0,
       cfg.patch_size, cfg.step_size, 0, 0, 0, [], false⟩ hc'
    have hstitch := runLoop_stitchSum cfg envs (selectedIdxs df0)
      ⟨if cfg.legacy_support then df0.map (legacyAssign cfg) else df0,
       cfg.patch_size, cfg.step_size, 0, 0, 0, [], false⟩ hc'
    simp only [handledItems, segContrib, patchContrib, stitchContrib,
      List.filterMap_nil, List.map_nil, List.sum_nil, sub_zero]
      at hseg hpatch hstitch
    have hsp : seg_and_patch cfg envs df0
        = { runLoop cfg envs (selectedIdxs df0)
              ⟨if cfg.legacy_support then df0.map (legacyAssign cfg) else df0,
               cfg.patch_size, cfg.step_size, 0, 0, 0, [], false⟩ with
            trace := (runLoop cfg envs (selectedIdxs df0)
              ⟨if cfg.legacy_support then df0.map (legacyAssign cfg) else df0,
               cfg.patch_size, cfg.step_size, 0, 0, 0, [], false⟩).trace
              ++ [.persist (runLoop cfg envs (selectedIdxs df0)
                ⟨if cfg.legacy_support then df0.map (legacyAssign cfg) else df0,
                 cfg.patch_size, cfg.step_size, 0, 0, 0, [], false⟩).df] } := by
      simp [seg_and_patch, hc']
    refine ⟨?_, ?_, ?_⟩ <;>
      simp only [reportedAvgSeg, reportedAvgPatch, reportedAvgStitch, hsp,
        handledItems_persist] <;>
      simp only [handledItems, segContrib, patchContrib, stitchContrib]
    · congr 1
      linarith [hseg]
    · congr 1
      linarith [hpatch]
    · congr 1
      linarith [hstitch]

/-- C7 counterexample: with 3 selected slides of which only one completes
(segmentation elapsed 6), the code reports 6/3 = 2, while the claimed
sum — a `-1` sentinel for each of the two non-completing items — gives
(6 - 1 - 1)/3 = 4/3: non-completing items actually contribute nothing to
the sum, not `-1`. -/
theorem c7_counterexample :
    (seg_and_patch cfg7 env7 df7).segSum = 6 ∧
    claimedSegSumC7 (handledItems (seg_and_patch cfg7 env7 df7).trace) = 4 ∧
    (selectedIdxs df7).length = 3 ∧
    reportedAvgSeg cfg7 env7 df7
      ≠ claimedSegSumC7 (handledItems (seg_and_patch cfg7 env7 df7).trace)
          / ((selectedIdxs df7).length : ℚ) := by
  have hsel : selectedIdxs df7 = [0, 1, 2] := by decide
  have h6 : (seg_and_patch cfg7 env7 df7).segSum = 6 := by
    simp [seg_and_patch, hsel, runLoop, stepState, crashState, processOne,
      pickedRecord, resolveParams, resolveLevel, resolveIds, mapParse,
      pyParseInt, parseNat, pyIdx, runStages, patchStage, mppLookup, env7, df7,
      cfg7, sampleConfig, sampleEnv, sampleRecord]
  have h4 : claimedSegSumC7 (handledItems (seg_and_patch cfg7 env7 df7).trace)
      = 4 := by
    simp [seg_and_patch, hsel, runLoop, stepState, crashState, processOne,
      pickedRecord, resolveParams, resolveLevel, resolveIds, mapParse,
      pyParseInt, parseNat, pyIdx, runStages, patchStage, mppLookup, env7, df7,
      cfg7, sampleConfig, sampleEnv, sampleRecord, claimedSegSumC7,
      handledItems]
    norm_num
  refine ⟨h6, h4, by rw [hsel]; rfl, ?_⟩
  show (seg_and_patch cfg7 env7 df7).segSum / _ ≠ _
  rw [h6, h4, hsel]
  norm_num

theorem c7_timing_average_witness :
    reportedAvgSeg cfg7 env7w c6Df
      = segContrib (handledItems (seg_and_patch cfg7 env7w c6Df).trace)
          / ((selectedIdxs c6Df).length : ℚ) ∧
    reportedAvgPatch cfg7 env7w c6Df
      = patchContrib (handledItems (seg_and_patch cfg7 env7w c6Df).trace)
          / ((selectedIdxs c6Df).length : ℚ) ∧
    reportedAvgStitch cfg7 env7w c6Df
      = stitchContrib (handledItems (seg_and_patch cfg7 env7w c6Df).trace)
          / ((selectedIdxs c6Df).length : ℚ) :=
  c7_timing_average cfg7 env7w c6Df (by decide)

/-- C8: a slide whose open fails, or whose segmentation stage raises,
keeps its pre-run status (no terminal value is written for that run), its
remaining stages are abandoned, and the batch loop still handles every
selected slide (one handled item per selected index whenever the run does
not die of an uncaught exception). -/
theorem c8_failure_isolation (cfg : Config) (env : SlideEnv) (rec0 : Record)
    (ps ss : ℤ) :
    (((cfg.auto_skip && env.artifactExists) = false → env.openOk = false →
      (processOne cfg env rec0 ps ss).record.status = rec0.status ∧
      (processOne cfg env rec0 ps ss).outcome = .openFailed ∧
      (processOne cfg env rec0 ps ss).segInvoked = false ∧
      (processOne cfg env rec0 ps ss).maskSaved = false ∧
      (processOne cfg env rec0 ps ss).patchInvoked = false ∧
      (processOne cfg env rec0 ps ss).stitchInvoked = false))
    ∧
    (∀ rp keepIds exclIds w h,
      (cfg.auto_skip && env.artifactExists) = false →
      env.openOk = true →
      resolveParams cfg env (pickedRecord rec0) = some rp →
      resolveIds rp.seg.keep_ids = some keepIds →
      resolveIds rp.seg.exclude_ids = some exclIds →
      pyIdx env.levelDims (resolveLevel env rp.seg.seg_level) = some (w, h) →
      ¬((100000000 : ℤ) < w * h) →
      cfg.seg = true → env.segRaises = true →
      (processOne cfg env rec0 ps ss).record.status = rec0.status ∧
      (processOne cfg env rec0 ps ss).outcome = .segFailed ∧
      (processOne cfg env rec0 ps ss).maskSaved = false ∧
      (processOne cfg env rec0 ps ss).patchInvoked = false ∧
      (processOne cfg env rec0 ps ss).stitchInvoked = false)
    ∧
    (∀ envs df0,
      (seg_and_patch cfg envs df0).crashed = false →
      (handledItems (seg_and_patch cfg envs df0).trace).length
        = (selectedIdxs df0).length) := by
  refine ⟨?_, ?_, ?_⟩
  · intro hskip hopen
    simp [processOne, hskip, hopen, pickedRecord]
  · intro rp keepIds exclIds w h hskip hopen hrp hkeep hexcl hdim hle hseg hraise
    rw [processOne_reach cfg env rec0 ps ss hskip hopen hrp hkeep hexcl hdim hle]
    have hstat := (resolveParams_record cfg env hrp).2
    simp [runStages, hseg, hraise, hstat, pickedRecord]
  · intro envs df0 h
    by_cases hc : (runLoop cfg envs (selectedIdxs df0)
        ⟨if cfg.legacy_support then df0.map (legacyAssign cfg) else df0,
         cfg.patch_size, cfg.step_size, 0, 0, 0, [], false⟩).crashed = true
    · rw [show seg_and_patch cfg envs df0
          = runLoop cfg envs (selectedIdxs df0)
              ⟨if cfg.legacy_support then df0.map (legacyAssign cfg) else df0,
               cfg.patch_size, cfg.step_size, 0, 0, 0, [], false⟩ by
        simp [seg_and_patch, hc]] at h
      rw [hc] at h
      exact absurd h (by simp)
    · have hc' := eq_false_of_ne_true hc
      have hcount := runLoop_handled cfg envs (selectedIdxs df0)
        ⟨if cfg.legacy_support then df0.map (legacyAssign cfg) else df0,
         cfg.patch_size, cfg.step_size, 0, 0, 0, [], false⟩ hc'
      have hsp : seg_and_patch cfg envs df0
          = { runLoop cfg envs (selectedIdxs df0)
                ⟨if cfg.legacy_support then df0.map (legacyAssign cfg) else df0,
                 cfg.patch_size, cfg.step_size, 0, 0, 0, [], false⟩ with
              trace := (runLoop cfg envs (selectedIdxs df0)
                ⟨if cfg.legacy_support then df0.map (legacyAssign cfg) else df0,
                 cfg.patch_size, cfg.step_size, 0, 0, 0, [], false⟩).trace
                ++ [.persist (runLoop cfg envs (selectedIdxs df0)
                  ⟨if cfg.legacy_support then df0.map (legacyAssign cfg)
                      else df0,
                   cfg.patch_size, cfg.step_size, 0, 0, 0, [], false⟩).df] } := by
        simp [seg_and_patch, hc']
      rw [hsp]
      show (handledItems (_ ++ _)).length = _
      rw [handledItems_persist, hcount]
      simp [handledItems]

theorem c8_failure_isolation_witness :
    ((processOne sampleConfig c8Env sampleRecord 256 256).record.status
        = sampleRecord.status ∧
      (processOne sampleConfig c8Env sampleRecord 256 256).outcome
        = .openFailed ∧
      (processOne sampleConfig c8Env sampleRecord 256 256).segInvoked = false ∧
      (processOne sampleConfig c8Env sampleRecord 256 256).maskSaved = false ∧
      (processOne sampleConfig c8Env sampleRecord 256 256).patchInvoked
        = false ∧
      (processOne sampleConfig c8Env sampleRecord 256 256).stitchInvoked
        = false) ∧
    ((processOne cfg7 c8SegEnv sampleRecord 256 256).record.status
        = sampleRecord.status ∧
      (processOne cfg7 c8SegEnv sampleRecord 256 256).outcome = .segFailed ∧
      (processOne cfg7 c8SegEnv sampleRecord 256 256).maskSaved = false ∧
      (processOne cfg7 c8SegEnv sampleRecord 256 256).patchInvoked = false ∧
      (processOne cfg7 c8SegEnv sampleRecord 256 256).stitchInvoked = false) ∧
    (handledItems (seg_and_patch cfg7 env7 df7).trace).length
      = (selectedIdxs df7).length :=
  ⟨(c8_failure_isolation sampleConfig c8Env sampleRecord 256 256).1 rfl rfl,
   (c8_failure_isolation cfg7 c8SegEnv sampleRecord 256 256).2.1
     sampleResolved [] [] 1000 1000 rfl rfl (by decide) (by decide) (by decide)
     (by decide) (by decide) rfl rfl,
   (c8_failure_isolation cfg7 sampleEnv sampleRecord 256 256).2.2 env7 df7
     (by decide)⟩

/-- C9: resolving `keep_ids` / `exclude_ids` maps the literal `"none"` and
the empty string to the empty id list, maps any comma-separated rendering
of integers back to exactly those integers, and the parsed lists are
exactly what the segmentation collaborator receives. -/
theorem c9_id_resolution :
    resolveIds "none".toList = some [] ∧
    resolveIds "".toList = some [] ∧
    (∀ ns : List ℤ, ns ≠ [] → resolveIds (renderInts ns) = some ns) ∧
    (∀ cfg env rec0 ps ss rp keepIds exclIds,
      resolveParams cfg env (pickedRecord rec0) = some rp →
      resolveIds rp.seg.keep_ids = some keepIds →
      resolveIds rp.seg.exclude_ids = some exclIds →
      ∀ sc, (processOne cfg env rec0 ps ss).segCall = some sc →
        sc.keep_ids = keepIds ∧ sc.exclude_ids = exclIds) := by
  refine ⟨rfl, rfl, ?_, ?_⟩
  · intro ns hns
    unfold resolveIds
    rw [if_pos ⟨renderInts_ne_none_lit ns,
      List.length_pos.2 (renderInts_ne_nil hns)⟩]
    rw [splitOn_renderInts hns, mapParse_renderInt]
  · intro cfg env rec0 ps ss rp keepIds exclIds hrp hkeep hexcl sc hsc
    cases hsk : (cfg.auto_skip && env.artifactExists) with
    | true => simp [processOne, hsk] at hsc
    | false =>
      cases hop : env.openOk with
      | false => simp [processOne, hsk, hop] at hsc
      | true =>
        rcases hdim : pyIdx env.levelDims (resolveLevel env rp.seg.seg_level)
          with _ | ⟨w, h⟩
        · simp [processOne, hsk, hop, hrp, hkeep, hexcl, hdim] at hsc
        · by_cases harea : (100000000 : ℤ) < w * h
          · simp [processOne, hsk, hop, hrp, hkeep, hexcl, hdim, harea] at hsc
          · rw [processOne_reach cfg env rec0 ps ss hsk hop hrp hkeep hexcl
              hdim harea] at hsc
            cases hs : cfg.seg with
            | false =>
              cases hr : env.segRaises <;>
                rcases hps : patchStage cfg env rp.patch ps ss
                  with osq | ⟨call, tq, osq, pa, sa⟩ | _ <;>
                simp [runStages, hs, hr, hps] at hsc
            | true =>
              cases hr : env.segRaises <;>
                rcases hps : patchStage cfg env rp.patch ps ss
                  with osq | ⟨call, tq, osq, pa, sa⟩ | _ <;>
                simp [runStages, hs, hr, hps] at hsc <;>
                (rw [← hsc]; exact ⟨rfl, rfl⟩)

theorem c9_id_resolution_witness :
    resolveIds (renderInts [3, 5, 9]) = some [3, 5, 9] ∧
    resolveIds "3,5,9".toList = some [3, 5, 9] :=
  ⟨c9_id_resolution.2.2.1 [3, 5, 9] (by decide), by decide⟩

/-- C10: the `process` flag of a picked-up record is cleared on every path
(auto-skip, open failure, size guard, segmentation failure, completion);
and on a segmentation failure the resolved `seg_level` / `vis_level` have
already been written back into the record while its status is left at the
pre-run value. -/
theorem c10_process_flag_and_levels (cfg : Config) (env : SlideEnv)
    (rec0 : Record) (ps ss : ℤ) :
    (processOne cfg env rec0 ps ss).record.process = 0 ∧
    (∀ rp keepIds exclIds w h,
      (cfg.auto_skip && env.artifactExists) = false →
      env.openOk = true →
      resolveParams cfg env (pickedRecord rec0) = some rp →
      resolveIds rp.seg.keep_ids = some keepIds →
      resolveIds rp.seg.exclude_ids = some exclIds →
      pyIdx env.levelDims (resolveLevel env rp.seg.seg_level) = some (w, h) →
      ¬((100000000 : ℤ) < w * h) →
      cfg.seg = true → env.segRaises = true →
      (processOne cfg env rec0 ps ss).record.seg_level
        = resolveLevel env rp.seg.seg_level ∧
      (processOne cfg env rec0 ps ss).record.vis_level
        = resolveLevel env rp.vis.vis_level ∧
      (processOne cfg env rec0 ps ss).record.status = rec0.status) := by
  constructor
  · cases hsk : (cfg.auto_skip && env.artifactExists) with
    | true => simp [processOne, hsk, pickedRecord]
    | false =>
      cases hop : env.openOk with
      | false => simp [processOne, hsk, hop, pickedRecord]
      | true =>
        rcases hrp : resolveParams cfg env (pickedRecord rec0) with _ | rp
        · simp only [pickedRecord] at hrp
          simp [processOne, hsk, hop, hrp, pickedRecord]
        · have hp : rp.record.process = 0 := by
            rw [(resolveParams_record cfg env hrp).1]
            rfl
          rcases hkeep : resolveIds rp.seg.keep_ids with _ | keepIds
          · rcases hexcl : resolveIds rp.seg.exclude_ids with _ | exclIds <;>
              simp [processOne, hsk, hop, hrp, hkeep, hexcl, hp]
          · rcases hexcl : resolveIds rp.seg.exclude_ids with _ | exclIds
            · simp [processOne, hsk, hop, hrp, hkeep, hexcl, hp]
            · rcases hdim : pyIdx env.levelDims
                  (resolveLevel env rp.seg.seg_level) with _ | ⟨w, h⟩
              · simp [processOne, hsk, hop, hrp, hkeep, hexcl, hdim, hp]
              · by_cases harea : (100000000 : ℤ) < w * h
                · simp [processOne, hsk, hop, hrp, hkeep, hexcl, hdim, harea,
                    hp]
                · rw [processOne_reach cfg env rec0 ps ss hsk hop hrp hkeep
                    hexcl hdim harea]
                  rw [runStages_process]
                  exact hp
  · intro rp keepIds exclIds w h hskip hopen hrp hkeep hexcl hdim hle hseg
      hraise
    rw [processOne_reach cfg env rec0 ps ss hskip hopen hrp hkeep hexcl hdim
      hle]
    have hstat := (resolveParams_record cfg env hrp).2
    simp [runStages, hseg, hraise, hstat, pickedRecord]

theorem c10_process_flag_and_levels_witness :
    (processOne cfg7 c8SegEnv sampleRecord 256 256).record.process = 0 ∧
    ((processOne cfg7 c8SegEnv sampleRecord 256 256).record.seg_level
        = resolveLevel c8SegEnv sampleResolved.seg.seg_level ∧
      (processOne cfg7 c8SegEnv sampleRecord 256 256).record.vis_level
        = resolveLevel c8SegEnv sampleResolved.vis.vis_level ∧
      (processOne cfg7 c8SegEnv sampleRecord 256 256).record.status
        = sampleRecord.status) :=
  ⟨(c10_process_flag_and_levels cfg7 c8SegEnv sampleRecord 256 256).1,
   (c10_process_flag_and_levels cfg7 c8SegEnv sampleRecord 256 256).2
     sampleResolved [] [] 1000 1000 rfl rfl (by decide) (by decide) (by decide)
     (by decide) (by decide) rfl rfl⟩

end CLAM
